import Mathlib

/-!
Shallow embedding of `clang/lib/StaticAnalyzer/Checkers/BadScaledPointerArithmeticChecker.cpp`.

The checker inspects every `BinaryOperator` before it is evaluated.  When the
operator is additive (`+`, `-`) or compound additive (`+=`, `-=`), one operand
is pointer-typed and the other integer-typed, the integer operand's symbolic
value is tagged as derived from a `sizeof`/`offsetof` expression, and the
pointer's pointee type is not provably of size one addressable unit, it emits
a diagnostic naming the suspicious side.

The embedding keeps the source's names (`isCharPtr`, `checkPreStmt`,
`reportBug`, `BT`).  The AST, type system and symbolic-execution collaborators
are modelled by the exact queries the checker performs on them:
  * `QualType` carries the results of `isNull`, `isAnyPointerType`,
    `isPointerType`, `isIntegerType` and `getPointeeType`;
  * `PointeeType` carries the results of `isNull`, `isIncompleteType`,
    `isDependentType`, `isa<DependentSizedArrayType>`, `isConstantSizeType`
    and `getTypeSizeInChars(...).getQuantity()`;
  * `SVal` carries the result of `isFromSizeof` (the provenance flag);
  * `CheckerContext` carries the path state's expression-to-value binding
    (`getSVal`) and the outcome of `generateNonFatalErrorNode` (which may be
    `none` when the engine declines to produce a node).
Emission of a report is modelled by the function result: `checkPreStmt`
returns the report handed to `C.emitReport`, or `none` when the invocation
is a no-op.
-/

namespace BadScaledPointerArith

/-- Clang's `BinaryOperatorKind` (`clang/AST/OperationKinds.def`). -/
inductive BinaryOperatorKind where
  | PtrMemD | PtrMemI
  | Mul | Div | Rem | Add | Sub
  | Shl | Shr | Cmp
  | LT | GT | LE | GE | EQ | NE
  | And | Xor | Or | LAnd | LOr
  | Assign
  | MulAssign | DivAssign | RemAssign | AddAssign | SubAssign
  | ShlAssign | ShrAssign | AndAssign | XorAssign | OrAssign
  | Comma
  deriving DecidableEq

/-- `BinaryOperator::isAdditiveOp`: true exactly for `BO_Add` and `BO_Sub`. -/
def isAdditiveOp (k : BinaryOperatorKind) : Bool :=
  k == .Add || k == .Sub

/-- The pointee type, as seen through the queries `isCharPtr` performs on it.
`sizeInChars` is `getTypeSizeInChars(PT).getQuantity()`, which is only
meaningful when the type is complete, non-dependent and of constant size. -/
structure PointeeType where
  isNull : Bool
  isIncompleteType : Bool
  isDependentType : Bool
  isDependentSizedArrayType : Bool
  isConstantSizeType : Bool
  sizeInChars : Int
  deriving DecidableEq

/-- A `QualType`, as seen through the queries the checker performs on it. -/
structure QualType where
  isNull : Bool
  isAnyPointerType : Bool
  isPointerType : Bool
  isIntegerType : Bool
  pointeeType : PointeeType
  deriving DecidableEq

/-- A symbolic value; the checker only queries its `isFromSizeof` provenance
flag (set by the engine when the value was computed from a `sizeof` or
`offsetof` expression, surviving assignments and copies). -/
structure SVal where
  isFromSizeof : Bool
  deriving DecidableEq

/-- An expression node: an identity plus its static type. -/
structure Expr where
  id : Nat
  type : QualType
  deriving DecidableEq

/-- A binary-operation AST node. -/
structure BinaryOperator where
  opcode : BinaryOperatorKind
  lhs : Expr
  rhs : Expr
  deriving DecidableEq

/-- An exploded-graph node, identified abstractly. -/
structure ExplodedNode where
  id : Nat
  deriving DecidableEq

/-- The slice of `CheckerContext` the checker uses: the current path state's
binding of expressions to symbolic values, and the result of asking the
engine for a non-fatal error node (`none` when the engine declines). -/
structure CheckerContext where
  getSVal : Expr → SVal
  generateNonFatalErrorNode : Option ExplodedNode

/-- A `BugType`: fixed name and category strings. -/
structure BugType where
  name : String
  category : String
  deriving DecidableEq

/-- The checker's single `BugType` member `BT`: name
"Badly scaled pointer arithmetic", category "Suspicious operation". -/
def BT : BugType :=
  ⟨"Badly scaled pointer arithmetic", "Suspicious operation"⟩

/-- A `PathSensitiveBugReport`, as constructed by `reportBug`. -/
structure PathSensitiveBugReport where
  bugType : BugType
  message : String
  node : ExplodedNode
  deriving DecidableEq

/-- The message built by `formatv` in `reportBug`, with `{0}` instantiated to
`"left"` or `"right"` according to `IsLeft`. -/
def bugMessage (IsLeft : Bool) : String :=
  "In pointer arithmetic " ++ (if IsLeft then "left" else "right")
    ++ " argument is calculated from a sizeof or offsetof expression"

/-- `BadScaledPointerArithmeticChecker::reportBug`: ask the engine for a
non-fatal error node; if it declines, do nothing, otherwise construct and
emit one report carrying `BT`, the side-specific message and the node. -/
def reportBug (IsLeft : Bool) (C : CheckerContext) : Option PathSensitiveBugReport :=
  match C.generateNonFatalErrorNode with
  | none => none
  | some N => some ⟨BT, bugMessage IsLeft, N⟩

/-- `BadScaledPointerArithmeticChecker::isCharPtr`: true iff `T` is a
non-null pointer type whose pointee is non-null, complete, non-dependent,
not a dependently sized array, of constant size, and of size exactly one
addressable unit. -/
def isCharPtr (T : QualType) : Bool :=
  if T.isNull || !T.isAnyPointerType then false
  else
    let PT := T.pointeeType
    if PT.isNull || PT.isIncompleteType || PT.isDependentType ||
        PT.isDependentSizedArrayType || !PT.isConstantSizeType then false
    else PT.sizeInChars == 1

/-- `BadScaledPointerArithmeticChecker::checkPreStmt`: the rule body.  The
returned value is the report emitted (via `reportBug`), or `none` when the
invocation is a no-op. -/
def checkPreStmt (BO : BinaryOperator) (C : CheckerContext) :
    Option PathSensitiveBugReport :=
  let OpKind := BO.opcode
  if !isAdditiveOp OpKind && OpKind != .AddAssign && OpKind != .SubAssign then
    none
  else
    let Lhs := BO.lhs
    let Rhs := BO.rhs
    if Lhs.type.isPointerType && Rhs.type.isIntegerType then
      let RHSVal := C.getSVal Rhs
      if RHSVal.isFromSizeof && !isCharPtr Lhs.type then
        reportBug false C
      else none
    else if Lhs.type.isIntegerType && Rhs.type.isPointerType then
      let LHSVal := C.getSVal Lhs
      if LHSVal.isFromSizeof && !isCharPtr Rhs.type then
        reportBug true C
      else none
    else none

/-- The conjunction of the pointee-side guards checked by `isCharPtr` before
it queries the type's size: non-null, complete, non-dependent, not a
dependently sized array, and of constant size. -/
def pointeeGuardsPass (PT : PointeeType) : Bool :=
  !PT.isNull && !PT.isIncompleteType && !PT.isDependentType &&
    !PT.isDependentSizedArrayType && PT.isConstantSizeType

/-- Result of running `isCharPtr` with the size query instrumented: `ok b`
when the function returns `b` having performed only valid size queries;
`invalidQuery` if it would query the size of a type for which the query is
not valid (an incomplete, dependent or non-constant-size type). -/
inductive SizeQueryResult where
  | ok (b : Bool)
  | invalidQuery
  deriving DecidableEq

/-- `isCharPtr` with the size query guarded: identical control flow to
`isCharPtr`, but the final size comparison is performed only if the size
query is valid for the pointee type (`pointeeGuardsPass`), and otherwise
reports `invalidQuery`. -/
def isCharPtrInstrumented (T : QualType) : SizeQueryResult :=
  if T.isNull || !T.isAnyPointerType then .ok false
  else
    let PT := T.pointeeType
    if PT.isNull || PT.isIncompleteType || PT.isDependentType ||
        PT.isDependentSizedArrayType || !PT.isConstantSizeType then .ok false
    else if pointeeGuardsPass PT then .ok (PT.sizeInChars == 1)
    else .invalidQuery

/-! ### Concrete fixtures used by the witness theorems -/

/-- A complete, non-dependent, constant-size pointee of size 4 (e.g. `int`
on a 32-bit-int target). -/
def intPointee : PointeeType := ⟨false, false, false, false, true, 4⟩

/-- A complete, non-dependent, constant-size pointee of size 1 (e.g. `char`). -/
def charPointee : PointeeType := ⟨false, false, false, false, true, 1⟩

/-- An incomplete pointee type (e.g. a forward-declared `struct`). -/
def incompletePointee : PointeeType := ⟨false, true, false, false, true, 0⟩

/-- A complete constant-size pointee of size 0 (e.g. a GNU-C empty struct). -/
def zeroPointee : PointeeType := ⟨false, false, false, false, true, 0⟩

/-- The type `int *`. -/
def intPtrT : QualType := ⟨false, true, true, false, intPointee⟩

/-- The type `char *`. -/
def charPtrT : QualType := ⟨false, true, true, false, charPointee⟩

/-- A pointer to an incomplete type. -/
def incompletePtrT : QualType := ⟨false, true, true, false, incompletePointee⟩

/-- A pointer to a size-0 type. -/
def zeroPtrT : QualType := ⟨false, true, true, false, zeroPointee⟩

/-- The type `int` (the pointee slot is unused for non-pointer types). -/
def intT : QualType := ⟨false, false, false, true, intPointee⟩

/-- A context whose path state tags exactly the value of expression 2 as
derived from `sizeof`/`offsetof`, with error node 7 available. -/
def ctx0 : CheckerContext := ⟨fun e => ⟨e.id == 2⟩, some ⟨7⟩⟩

/-- Like `ctx0`, but additionally tags the value of the pointer-typed
expression `⟨1, intPtrT⟩` (and only it) as `sizeof`-derived. -/
def ctx0' : CheckerContext :=
  ⟨fun e => if e = (⟨1, intPtrT⟩ : Expr) then ⟨true⟩ else ⟨e.id == 2⟩, some ⟨7⟩⟩

/-- A context in which the engine declines to produce an error node. -/
def ctxNoNode : CheckerContext := ⟨fun e => ⟨e.id == 2⟩, none⟩

/-! ### Helper lemmas -/

/-- The early-return test of `isCharPtr` on the pointee is the negation of
`pointeeGuardsPass`. -/
theorem guardTest_eq_not_pointeeGuardsPass (PT : PointeeType) :
    (PT.isNull || PT.isIncompleteType || PT.isDependentType ||
      PT.isDependentSizedArrayType || !PT.isConstantSizeType)
      = !pointeeGuardsPass PT := by
  rcases PT with ⟨n, i, d, a, c, s⟩
  cases n <;> cases i <;> cases d <;> cases a <;> cases c <;> rfl

/-- `isCharPtr` is false whenever a pointee-side guard fails. -/
theorem isCharPtr_eq_false_of_guards_fail (T : QualType)
    (h : pointeeGuardsPass T.pointeeType = false) : isCharPtr T = false := by
  simp only [isCharPtr]
  split
  · rfl
  · rw [guardTest_eq_not_pointeeGuardsPass, h]
    rfl

/-- `isCharPtr` is false whenever the pointee size differs from 1. -/
theorem isCharPtr_eq_false_of_size_ne_one (T : QualType)
    (h : T.pointeeType.sizeInChars ≠ 1) : isCharPtr T = false := by
  simp only [isCharPtr]
  split
  · rfl
  · split
    · rfl
    · simpa using h

/-- `isCharPtr` is true for a non-null pointer type whose pointee passes all
guards and has size exactly 1. -/
theorem isCharPtr_eq_true (T : QualType)
    (hn : T.isNull = false) (hp : T.isAnyPointerType = true)
    (hg : pointeeGuardsPass T.pointeeType = true)
    (hs : T.pointeeType.sizeInChars = 1) : isCharPtr T = true := by
  simp only [isCharPtr]
  rw [hn, hp, guardTest_eq_not_pointeeGuardsPass, hg, hs]
  rfl

/-- The operator filter evaluates to false (i.e. the rule proceeds) exactly
when the opcode is additive or a compound additive assignment. -/
theorem opFilter_eq_false (k : BinaryOperatorKind)
    (hop : isAdditiveOp k = true ∨ k = .AddAssign ∨ k = .SubAssign) :
    (!isAdditiveOp k && k != .AddAssign && k != .SubAssign) = false := by
  rcases hop with h | h | h
  · rw [h]; rfl
  · subst h; rfl
  · subst h; rfl

/-- Shape of any report produced by `reportBug`. -/
theorem reportBug_some_shape (b : Bool) (C : CheckerContext)
    (r : PathSensitiveBugReport) (h : reportBug b C = some r) :
    r.bugType = BT ∧ r.message = bugMessage b := by
  unfold reportBug at h
  cases hn : C.generateNonFatalErrorNode with
  | none => rw [hn] at h; exact absurd h (by simp)
  | some N =>
      rw [hn] at h
      injection h with h'
      subst h'
      exact ⟨rfl, rfl⟩

/-! ### Claim theorems -/

/-- Claim C1: for every binary operation whose operator is additive (`+`, `-`)
or compound additive-assignment (`+=`, `-=`), where exactly one side is
pointer-typed and the other integer-typed, the integer operand's symbolic
value carries the sizeof/offsetof provenance flag, and the pointer's pointee
type has statically-known constant size greater than 1 addressable unit, the
rule emits a finding whose side label names the integer side ("right" when
the right operand is the integer, "left" when the left operand is). -/
theorem checkPreStmt_reports_correct_side
    (BO : BinaryOperator) (C : CheckerContext) (N : ExplodedNode)
    (hop : isAdditiveOp BO.opcode = true ∨ BO.opcode = .AddAssign ∨
      BO.opcode = .SubAssign)
    (hnode : C.generateNonFatalErrorNode = some N) :
    (BO.lhs.type.isPointerType = true → BO.lhs.type.isIntegerType = false →
      BO.rhs.type.isIntegerType = true → BO.rhs.type.isPointerType = false →
      (C.getSVal BO.rhs).isFromSizeof = true →
      pointeeGuardsPass BO.lhs.type.pointeeType = true →
      1 < BO.lhs.type.pointeeType.sizeInChars →
      checkPreStmt BO C = some ⟨BT, bugMessage false, N⟩) ∧
    (BO.lhs.type.isIntegerType = true → BO.lhs.type.isPointerType = false →
      BO.rhs.type.isPointerType = true → BO.rhs.type.isIntegerType = false →
      (C.getSVal BO.lhs).isFromSizeof = true →
      pointeeGuardsPass BO.rhs.type.pointeeType = true →
      1 < BO.rhs.type.pointeeType.sizeInChars →
      checkPreStmt BO C = some ⟨BT, bugMessage true, N⟩) := by
  constructor
  · intro hLp _hLi hRi _hRp htag _hg hsz
    have hchar : isCharPtr BO.lhs.type = false :=
      isCharPtr_eq_false_of_size_ne_one _ (by omega)
    simp [checkPreStmt, opFilter_eq_false BO.opcode hop, hLp, hRi, htag, hchar,
      reportBug, hnode]
  · intro hLi hLp hRp _hRi htag _hg hsz
    have hchar : isCharPtr BO.rhs.type = false :=
      isCharPtr_eq_false_of_size_ne_one _ (by omega)
    simp [checkPreStmt, opFilter_eq_false BO.opcode hop, hLp, hLi, hRp, htag,
      hchar, reportBug, hnode]

/-- Witness for C1: `p + n` with `p : int *` (pointee size 4) and the value
of `n` tagged as `sizeof`-derived yields the "right"-side report. -/
theorem checkPreStmt_reports_correct_side_witness :
    checkPreStmt ⟨.Add, ⟨1, intPtrT⟩, ⟨2, intT⟩⟩ ctx0 =
      some ⟨BT, bugMessage false, ⟨7⟩⟩ :=
  (checkPreStmt_reports_correct_side ⟨.Add, ⟨1, intPtrT⟩, ⟨2, intT⟩⟩ ctx0 ⟨7⟩
      (Or.inl (by decide)) rfl).1 rfl rfl rfl rfl (by decide) (by decide)
    (by decide)

/-- Claim C2: for every otherwise-qualifying operation (additive or compound
additive operator, one pointer-typed and one provenance-tagged integer-typed
operand) where the pointer's pointee type has statically-known constant size
exactly 1 addressable unit, the rule is a no-op and emits no finding. -/
theorem checkPreStmt_silent_on_size_one_pointee
    (BO : BinaryOperator) (C : CheckerContext)
    (hop : isAdditiveOp BO.opcode = true ∨ BO.opcode = .AddAssign ∨
      BO.opcode = .SubAssign) :
    (BO.lhs.type.isPointerType = true → BO.lhs.type.isIntegerType = false →
      BO.rhs.type.isIntegerType = true → BO.rhs.type.isPointerType = false →
      (C.getSVal BO.rhs).isFromSizeof = true →
      BO.lhs.type.isNull = false → BO.lhs.type.isAnyPointerType = true →
      pointeeGuardsPass BO.lhs.type.pointeeType = true →
      BO.lhs.type.pointeeType.sizeInChars = 1 →
      checkPreStmt BO C = none) ∧
    (BO.lhs.type.isIntegerType = true → BO.lhs.type.isPointerType = false →
      BO.rhs.type.isPointerType = true → BO.rhs.type.isIntegerType = false →
      (C.getSVal BO.lhs).isFromSizeof = true →
      BO.rhs.type.isNull = false → BO.rhs.type.isAnyPointerType = true →
      pointeeGuardsPass BO.rhs.type.pointeeType = true →
      BO.rhs.type.pointeeType.sizeInChars = 1 →
      checkPreStmt BO C = none) := by
  constructor
  · intro hLp _hLi hRi _hRp _htag hn hap hg hsz
    have hchar : isCharPtr BO.lhs.type = true := isCharPtr_eq_true _ hn hap hg hsz
    simp [checkPreStmt, opFilter_eq_false BO.opcode hop, hLp, hRi, hchar]
  · intro hLi hLp hRp _hRi _htag hn hap hg hsz
    have hchar : isCharPtr BO.rhs.type = true := isCharPtr_eq_true _ hn hap hg hsz
    simp [checkPreStmt, opFilter_eq_false BO.opcode hop, hLp, hLi, hRp, hchar]

/-- Witness for C2: `p - n` with `p : char *` (pointee size 1) and a tagged
`n` emits nothing. -/
theorem checkPreStmt_silent_on_size_one_pointee_witness :
    checkPreStmt ⟨.Sub, ⟨1, charPtrT⟩, ⟨2, intT⟩⟩ ctx0 = none :=
  (checkPreStmt_silent_on_size_one_pointee ⟨.Sub, ⟨1, charPtrT⟩, ⟨2, intT⟩⟩
      ctx0 (Or.inl (by decide))).1
    rfl rfl rfl rfl (by decide) rfl rfl (by decide) (by decide)

/-- Claim C3: for every otherwise-qualifying operation where the pointer's
pointee type is null, incomplete, dependent, a dependently sized array, or
not of statically-known constant size (i.e. some pointee-side guard fails),
the size-one exclusion does not apply and a finding is emitted — the
conservative default — rather than the candidate being skipped. -/
theorem checkPreStmt_reports_when_pointee_size_unknown
    (BO : BinaryOperator) (C : CheckerContext) (N : ExplodedNode)
    (hop : isAdditiveOp BO.opcode = true ∨ BO.opcode = .AddAssign ∨
      BO.opcode = .SubAssign)
    (hnode : C.generateNonFatalErrorNode = some N) :
    (BO.lhs.type.isPointerType = true → BO.lhs.type.isIntegerType = false →
      BO.rhs.type.isIntegerType = true → BO.rhs.type.isPointerType = false →
      (C.getSVal BO.rhs).isFromSizeof = true →
      pointeeGuardsPass BO.lhs.type.pointeeType = false →
      checkPreStmt BO C = some ⟨BT, bugMessage false, N⟩) ∧
    (BO.lhs.type.isIntegerType = true → BO.lhs.type.isPointerType = false →
      BO.rhs.type.isPointerType = true → BO.rhs.type.isIntegerType = false →
      (C.getSVal BO.lhs).isFromSizeof = true →
      pointeeGuardsPass BO.rhs.type.pointeeType = false →
      checkPreStmt BO C = some ⟨BT, bugMessage true, N⟩) := by
  constructor
  · intro hLp _hLi hRi _hRp htag hg
    have hchar : isCharPtr BO.lhs.type = false :=
      isCharPtr_eq_false_of_guards_fail _ hg
    simp [checkPreStmt, opFilter_eq_false BO.opcode hop, hLp, hRi, htag, hchar,
      reportBug, hnode]
  · intro hLi hLp hRp _hRi htag hg
    have hchar : isCharPtr BO.rhs.type = false :=
      isCharPtr_eq_false_of_guards_fail _ hg
    simp [checkPreStmt, opFilter_eq_false BO.opcode hop, hLp, hLi, hRp, htag,
      hchar, reportBug, hnode]

/-- Witness for C3: `p += n` with `p` a pointer to an incomplete struct and
a tagged `n` still emits the "right"-side report. -/
theorem checkPreStmt_reports_when_pointee_size_unknown_witness :
    checkPreStmt ⟨.AddAssign, ⟨1, incompletePtrT⟩, ⟨2, intT⟩⟩ ctx0 =
      some ⟨BT, bugMessage false, ⟨7⟩⟩ :=
  (checkPreStmt_reports_when_pointee_size_unknown
      ⟨.AddAssign, ⟨1, incompletePtrT⟩, ⟨2, intT⟩⟩ ctx0 ⟨7⟩
      (Or.inr (Or.inl rfl)) rfl).1 rfl rfl rfl rfl (by decide) (by decide)

/-- Claim C10: for every otherwise-qualifying operation where the pointer's
pointee type has statically-known constant size 0, a finding is emitted: the
safe-type exclusion applies exactly when the size equals 1, not when it is
at most 1. -/
theorem checkPreStmt_reports_size_zero_pointee
    (BO : BinaryOperator) (C : CheckerContext) (N : ExplodedNode)
    (hop : isAdditiveOp BO.opcode = true ∨ BO.opcode = .AddAssign ∨
      BO.opcode = .SubAssign)
    (hnode : C.generateNonFatalErrorNode = some N) :
    (BO.lhs.type.isPointerType = true → BO.lhs.type.isIntegerType = false →
      BO.rhs.type.isIntegerType = true → BO.rhs.type.isPointerType = false →
      (C.getSVal BO.rhs).isFromSizeof = true →
      pointeeGuardsPass BO.lhs.type.pointeeType = true →
      BO.lhs.type.pointeeType.sizeInChars = 0 →
      checkPreStmt BO C = some ⟨BT, bugMessage false, N⟩) ∧
    (BO.lhs.type.isIntegerType = true → BO.lhs.type.isPointerType = false →
      BO.rhs.type.isPointerType = true → BO.rhs.type.isIntegerType = false →
      (C.getSVal BO.lhs).isFromSizeof = true →
      pointeeGuardsPass BO.rhs.type.pointeeType = true →
      BO.rhs.type.pointeeType.sizeInChars = 0 →
      checkPreStmt BO C = some ⟨BT, bugMessage true, N⟩) := by
  constructor
  · intro hLp _hLi hRi _hRp htag _hg hsz
    have hchar : isCharPtr BO.lhs.type = false :=
      isCharPtr_eq_false_of_size_ne_one _ (by omega)
    simp [checkPreStmt, opFilter_eq_false BO.opcode hop, hLp, hRi, htag, hchar,
      reportBug, hnode]
  · intro hLi hLp hRp _hRi htag _hg hsz
    have hchar : isCharPtr BO.rhs.type = false :=
      isCharPtr_eq_false_of_size_ne_one _ (by omega)
    simp [checkPreStmt, opFilter_eq_false BO.opcode hop, hLp, hLi, hRp, htag,
      hchar, reportBug, hnode]

/-- Witness for C10: `n + p` with `p` a pointer to a size-0 type and a tagged
`n` emits the "left"-side report. -/
theorem checkPreStmt_reports_size_zero_pointee_witness :
    checkPreStmt ⟨.Add, ⟨2, intT⟩, ⟨1, zeroPtrT⟩⟩ ctx0 =
      some ⟨BT, bugMessage true, ⟨7⟩⟩ :=
  (checkPreStmt_reports_size_zero_pointee ⟨.Add, ⟨2, intT⟩, ⟨1, zeroPtrT⟩⟩
      ctx0 ⟨7⟩ (Or.inl (by decide)) rfl).2 rfl rfl rfl rfl (by decide)
    (by decide) (by decide)

/-- Claim C4: the type-size query in the size-one test is performed only
after the type has been checked to be a non-null pointer whose pointee is
non-null, complete, non-dependent, not a dependently sized array, and of
constant size: the instrumented run never reaches an invalid size query (it
always returns `ok`, agreeing with `isCharPtr`), and on every input failing
any guard it returns false without querying the size. -/
theorem isCharPtr_guards_precede_size_query (T : QualType) :
    isCharPtrInstrumented T = SizeQueryResult.ok (isCharPtr T) ∧
    (T.isNull = true ∨ T.isAnyPointerType = false ∨
      pointeeGuardsPass T.pointeeType = false →
      isCharPtrInstrumented T = SizeQueryResult.ok false) := by
  rcases T with ⟨n, ap, p, i, ⟨pn, pi, pd, pa, pc, sz⟩⟩
  cases n <;> cases ap <;> cases pn <;> cases pi <;> cases pd <;> cases pa <;>
    cases pc <;> simp [isCharPtrInstrumented, isCharPtr, pointeeGuardsPass]

/-- Witness for C4: on a pointer to an incomplete type the instrumented test
returns false without an invalid size query. -/
theorem isCharPtr_guards_precede_size_query_witness :
    isCharPtrInstrumented incompletePtrT = SizeQueryResult.ok false :=
  (isCharPtr_guards_precede_size_query incompletePtrT).2
    (Or.inr (Or.inr (by decide)))

/-- Claim C5: for every binary operation where the symbolic value of the
integer-typed operand does not carry the sizeof/offsetof provenance flag, no
finding is emitted, regardless of the operands' static types or the pointee's
size (in each pointer/integer configuration only that configuration's integer
operand is consulted). -/
theorem checkPreStmt_silent_without_provenance
    (BO : BinaryOperator) (C : CheckerContext)
    (h1 : BO.lhs.type.isPointerType = true → BO.rhs.type.isIntegerType = true →
      (C.getSVal BO.rhs).isFromSizeof = false)
    (h2 : BO.lhs.type.isIntegerType = true → BO.rhs.type.isPointerType = true →
      (C.getSVal BO.lhs).isFromSizeof = false) :
    checkPreStmt BO C = none := by
  simp only [checkPreStmt]
  split
  · rfl
  · split
    · rename_i hcond
      rw [Bool.and_eq_true] at hcond
      simp [h1 hcond.1 hcond.2]
    · split
      · rename_i hcond
        rw [Bool.and_eq_true] at hcond
        simp [h2 hcond.1 hcond.2]
      · rfl

/-- Witness for C5: `p + m` with an untagged `m` emits nothing. -/
theorem checkPreStmt_silent_without_provenance_witness :
    checkPreStmt ⟨.Add, ⟨1, intPtrT⟩, ⟨3, intT⟩⟩ ctx0 = none :=
  checkPreStmt_silent_without_provenance ⟨.Add, ⟨1, intPtrT⟩, ⟨3, intT⟩⟩ ctx0
    (fun _ _ => by decide) (fun h _ => absurd h (by decide))

/-- Claim C6: for every binary operation whose operator is not `+`, `-`,
`+=` or `-=`, the rule is a no-op: no finding is emitted regardless of
operand types or provenance. -/
theorem checkPreStmt_silent_on_non_additive
    (BO : BinaryOperator) (C : CheckerContext)
    (h : BO.opcode ≠ .Add ∧ BO.opcode ≠ .Sub ∧ BO.opcode ≠ .AddAssign ∧
      BO.opcode ≠ .SubAssign) :
    checkPreStmt BO C = none := by
  obtain ⟨h1, h2, h3, h4⟩ := h
  have hf : (!isAdditiveOp BO.opcode && BO.opcode != .AddAssign &&
      BO.opcode != .SubAssign) = true := by
    simp [isAdditiveOp, h1, h2, h3, h4]
  simp [checkPreStmt, hf]

/-- Witness for C6: `p * n` (multiplication) emits nothing even with pointer
and tagged-integer operands. -/
theorem checkPreStmt_silent_on_non_additive_witness :
    checkPreStmt ⟨.Mul, ⟨1, intPtrT⟩, ⟨2, intT⟩⟩ ctx0 = none :=
  checkPreStmt_silent_on_non_additive ⟨.Mul, ⟨1, intPtrT⟩, ⟨2, intT⟩⟩ ctx0
    ⟨by decide, by decide, by decide, by decide⟩

/-- Claim C7: every emitted diagnostic carries the fixed bug type (name
"Badly scaled pointer arithmetic", short description "Suspicious operation" —
the single `BT` instance shared by all reports) and a message text exactly
equal to one of the two literal side-specific strings. -/
theorem checkPreStmt_report_identity
    (BO : BinaryOperator) (C : CheckerContext) (r : PathSensitiveBugReport)
    (h : checkPreStmt BO C = some r) :
    r.bugType = BT ∧
    r.bugType.name = "Badly scaled pointer arithmetic" ∧
    r.bugType.category = "Suspicious operation" ∧
    (r.message =
        "In pointer arithmetic left argument is calculated from a sizeof or offsetof expression" ∨
      r.message =
        "In pointer arithmetic right argument is calculated from a sizeof or offsetof expression") := by
  simp only [checkPreStmt] at h
  have hb : ∃ b, reportBug b C = some r := by
    split at h
    · exact Option.noConfusion h
    · split at h
      · split at h
        · exact ⟨false, h⟩
        · exact Option.noConfusion h
      · split at h
        · split at h
          · exact ⟨true, h⟩
          · exact Option.noConfusion h
        · exact Option.noConfusion h
  obtain ⟨b, hb⟩ := hb
  obtain ⟨hbt, hmsg⟩ := reportBug_some_shape b C r hb
  refine ⟨hbt, ?_, ?_, ?_⟩
  · rw [hbt]; rfl
  · rw [hbt]; rfl
  · cases b
    · right; rw [hmsg]; rfl
    · left; rw [hmsg]; rfl

/-- Witness for C7: the report produced on `p + n` carries `BT` and the
literal "right" message. -/
theorem checkPreStmt_report_identity_witness :
    (⟨BT, bugMessage false, ⟨7⟩⟩ : PathSensitiveBugReport).bugType = BT ∧
    (⟨BT, bugMessage false, ⟨7⟩⟩ : PathSensitiveBugReport).bugType.name =
      "Badly scaled pointer arithmetic" ∧
    (⟨BT, bugMessage false, ⟨7⟩⟩ : PathSensitiveBugReport).bugType.category =
      "Suspicious operation" ∧
    ((⟨BT, bugMessage false, ⟨7⟩⟩ : PathSensitiveBugReport).message =
        "In pointer arithmetic left argument is calculated from a sizeof or offsetof expression" ∨
      (⟨BT, bugMessage false, ⟨7⟩⟩ : PathSensitiveBugReport).message =
        "In pointer arithmetic right argument is calculated from a sizeof or offsetof expression") :=
  checkPreStmt_report_identity ⟨.Add, ⟨1, intPtrT⟩, ⟨2, intT⟩⟩ ctx0
    ⟨BT, bugMessage false, ⟨7⟩⟩ (by rfl)

/-- Claim C8: at the report step, if the engine declines to produce a
non-fatal error node then no report is constructed or emitted; a report is
emitted if and only if the engine supplies an error node. -/
theorem reportBug_emits_iff_error_node (b : Bool) (C : CheckerContext) :
    (C.generateNonFatalErrorNode = none → reportBug b C = none) ∧
    ((reportBug b C).isSome = true ↔
      C.generateNonFatalErrorNode.isSome = true) := by
  cases hn : C.generateNonFatalErrorNode <;> simp [reportBug, hn]

/-- Witness for C8: with the engine declining, `reportBug` emits nothing. -/
theorem reportBug_emits_iff_error_node_witness :
    reportBug false ctxNoNode = none :=
  (reportBug_emits_iff_error_node false ctxNoNode).1 rfl

/-- Claim C9: the rule's outcome never depends on the provenance flag of the
pointer-typed operand's symbolic value: two invocations on the same node
whose path states agree on the engine's error-node answer and on the
symbolic value of every expression other than the pointer-typed operand
produce the same decision and the same message — only the integer-typed
operand's value is consulted. -/
theorem checkPreStmt_ignores_pointer_side_provenance
    (BO : BinaryOperator) (C C' : CheckerContext)
    (hnode : C.generateNonFatalErrorNode = C'.generateNonFatalErrorNode)
    (hcfg :
      (BO.lhs.type.isPointerType = true ∧ BO.lhs.type.isIntegerType = false ∧
        BO.rhs.type.isIntegerType = true ∧ BO.rhs.type.isPointerType = false ∧
        ∀ e : Expr, e ≠ BO.lhs → C.getSVal e = C'.getSVal e) ∨
      (BO.lhs.type.isIntegerType = true ∧ BO.lhs.type.isPointerType = false ∧
        BO.rhs.type.isPointerType = true ∧ BO.rhs.type.isIntegerType = false ∧
        ∀ e : Expr, e ≠ BO.rhs → C.getSVal e = C'.getSVal e)) :
    checkPreStmt BO C = checkPreStmt BO C' := by
  have hrep : ∀ b : Bool, reportBug b C = reportBug b C' := by
    intro b
    simp only [reportBug, hnode]
  rcases hcfg with ⟨hLp, _hLi, hRi, hRp, hagree⟩ | ⟨hLi, hLp, hRp, _hRi, hagree⟩
  · have hne : BO.rhs ≠ BO.lhs := by
      intro hEq
      rw [hEq, hLp] at hRp
      exact Bool.noConfusion hRp
    have hs : C.getSVal BO.rhs = C'.getSVal BO.rhs := hagree _ hne
    simp only [checkPreStmt]
    split
    · rfl
    · simp [hLp, hRi, hs, hrep]
  · have hne : BO.lhs ≠ BO.rhs := by
      intro hEq
      rw [hEq, hRp] at hLp
      exact Bool.noConfusion hLp
    have hs : C.getSVal BO.lhs = C'.getSVal BO.lhs := hagree _ hne
    simp only [checkPreStmt]
    split
    · rfl
    · simp [hLp, hLi, hRp, hs, hrep]

/-- Witness for C9: tagging the pointer operand's value (and nothing else)
does not change the outcome. -/
theorem checkPreStmt_ignores_pointer_side_provenance_witness :
    checkPreStmt ⟨.Add, ⟨1, intPtrT⟩, ⟨2, intT⟩⟩ ctx0 =
      checkPreStmt ⟨.Add, ⟨1, intPtrT⟩, ⟨2, intT⟩⟩ ctx0' :=
  checkPreStmt_ignores_pointer_side_provenance
    ⟨.Add, ⟨1, intPtrT⟩, ⟨2, intT⟩⟩ ctx0 ctx0' rfl
    (Or.inl ⟨rfl, rfl, rfl, rfl, fun e he => by simp [ctx0, ctx0', he]⟩)

end BadScaledPointerArith
